import Mathlib

/-!
# builder/upcloud/config.go

A shallow embedding of `NewConfig`, the constructor that decodes, defaults and
validates the builder configuration, together with the properties of it that
the specification states.

The function calls five collaborators that live in other packages:
`config.Decode`, `communicator.Config.Prepare`, `os.Stat`/`os.IsNotExist`,
`time.ParseDuration` and `packer.MultiErrorAppend`.  The first four are taken
as the fields of an environment `Env`, so every theorem holds for whatever they
compute; `os.IsNotExist` and `packer.MultiErrorAppend` are small enough to be
written out.
-/

namespace Upcloud

/-! ## Data model -/

/-- An error value of Go's `error` interface, identified by the message that
its `Error()` method returns. -/
structure GoError where
  msg : String
deriving DecidableEq, Repr

/-- The value `errors.New(text)`. -/
def errorsNew (text : String) : GoError := ⟨text⟩

/-- The value `fmt.Errorf("Failed to parse state_timeout_duration: %s", err)`:
the verb `%s` on an error prints its message. -/
def errorfParseTimeout (err : GoError) : GoError :=
  ⟨"Failed to parse state_timeout_duration: " ++ err.msg⟩

/-- The struct `packer.MultiError`: its one field is the slice `Errors`. -/
structure MultiError where
  Errors : List GoError
deriving DecidableEq, Repr

/-- Fields of framework structs that `NewConfig` neither reads nor writes
itself are carried along as uninterpreted key/value settings. -/
abbrev Settings := List (String × String)

/-- The struct `communicator.Config`, squashed into `Config` as `Comm`.
`NewConfig` assigns `SSHUsername`; the remaining fields are in `Other`. -/
structure CommunicatorConfig where
  SSHUsername : String
  Other : Settings
deriving DecidableEq, Repr

/-- The struct `Config` (config.go, lines 18-37), field by field. -/
structure Config where
  PackerConfig : Settings
  Comm : CommunicatorConfig
  Username : String
  Password : String
  Zone : String
  StorageUUID : String
  TemplatePrefix : String
  StorageSize : Int
  RawStateTimeoutDuration : String
  SSHPrivateKeyFile : String
  SSHPublicKeyFile : String
  StateTimeoutDuration : Int
  ctx : Settings
deriving DecidableEq, Repr

/-- The value `new(Config)` points to: every field at its zero value. -/
def Config.zero : Config :=
  { PackerConfig := [], Comm := { SSHUsername := "", Other := [] },
    Username := "", Password := "", Zone := "", StorageUUID := "",
    TemplatePrefix := "", StorageSize := 0, RawStateTimeoutDuration := "",
    SSHPrivateKeyFile := "", SSHPublicKeyFile := "",
    StateTimeoutDuration := 0, ctx := [] }

/-- The classes of failure of `os.Stat` that `os.IsNotExist` tells apart: the
entry is reported missing, or the call failed for another reason (permission
denied, not a directory, ...). -/
inductive StatError where
  | notExist
  | other
deriving DecidableEq, Repr

/-- The function `os.IsNotExist`, applied to the error of an `os.Stat` call
(`none` is the nil error). -/
def IsNotExist (err : Option StatError) : Bool :=
  match err with
  | some StatError.notExist => true
  | _ => false

/-- The collaborators of `NewConfig` from other packages.
* `Decode target raws` is `config.Decode(target, opts, raws...)`: the target
  after the call and the returned error (`none` is nil);
* `Prepare comm ctx` is `comm.Prepare(&ctx)`: receiver and context after the
  call, and the returned slice of errors (the communicator builds it from
  error values only, it holds no nil element);
* `Stat path` is the error of `os.Stat(path)`;
* `ParseDuration s` is `time.ParseDuration(s)`: duration in nanoseconds and
  error. -/
structure Env (ρ : Type) where
  Decode : Config → List ρ → Config × Option GoError
  Prepare : CommunicatorConfig → Settings → CommunicatorConfig × Settings × List GoError
  Stat : String → Option StatError
  ParseDuration : String → Int × Option GoError

/-- The dynamic value of the `error` that `NewConfig` returns: the error of
`config.Decode` as it is, or the `*packer.MultiError` accumulator. -/
inductive ReturnedError where
  | plain (err : GoError)
  | multi (errs : MultiError)
deriving DecidableEq, Repr

/-- How a call of `NewConfig` ends: it returns the pair `(*Config, error)`
(`none` is nil), or it reads `errs.Errors` through a nil pointer. -/
inductive Outcome where
  | returned (c : Option Config) (err : Option ReturnedError)
  | nilDereference
deriving DecidableEq, Repr

/-! ## Operations -/

/-- Modelled from the spec: `packer.MultiErrorAppend` belongs to the packer
framework and is not part of this repository; the spec describes the
accumulator as a growable list of error values to which each check appends.
Called with a `*MultiError` (here always), the helper allocates a fresh
aggregate when the pointer is nil, appends the given errors in order and
returns the pointer, which is therefore never nil. -/
def MultiErrorAppend (err : Option MultiError) (errs : List GoError) : Option MultiError :=
  let m : MultiError := match err with
    | none => { Errors := [] }
    | some m => m
  some { m with Errors := m.Errors ++ errs }

/-- Lines 58-67: the assignments made before validation. -/
def applyDefaults (c : Config) : Config :=
  let c := { c with Comm := { c.Comm with SSHUsername := "root" } }
  let c := if c.StorageSize = 0 then { c with StorageSize := 30 } else c
  let c := if c.RawStateTimeoutDuration = "" then
    { c with RawStateTimeoutDuration := "5m" } else c
  c

/-- Lines 70-71: the accumulator is declared nil and the errors of the
communicator's `Prepare` are appended to it. -/
def prepareComm {ρ : Type} (env : Env ρ) (c : Config) : Config × Option MultiError :=
  let errs : Option MultiError := none
  let r := env.Prepare c.Comm c.ctx
  ({ c with Comm := r.1, ctx := r.2.1 }, MultiErrorAppend errs r.2.2)

/-- Lines 73-82: the existence checks on the two key files. -/
def checkKeyFiles {ρ : Type} (env : Env ρ) (c : Config) (errs : Option MultiError) :
    Option MultiError :=
  if c.SSHPrivateKeyFile ≠ "" ∧ c.SSHPublicKeyFile ≠ "" then
    let errs := if IsNotExist (env.Stat c.SSHPrivateKeyFile) then
      MultiErrorAppend errs [errorsNew "ssh_private_keyfile does not exist"] else errs
    let errs := if IsNotExist (env.Stat c.SSHPublicKeyFile) then
      MultiErrorAppend errs [errorsNew "ssh_public_keyfile does not exist"] else errs
    errs
  else errs

/-- Lines 84-103: the four emptiness checks. -/
def checkRequired (c : Config) (errs : Option MultiError) : Option MultiError :=
  let errs := if c.Username = "" then
    MultiErrorAppend errs [errorsNew "\"username\" must be specified"] else errs
  let errs := if c.Password = "" then
    MultiErrorAppend errs [errorsNew "\"password\" must be specified"] else errs
  let errs := if c.Zone = "" then
    MultiErrorAppend errs [errorsNew "\"zone\" must be specified"] else errs
  let errs := if c.StorageUUID = "" then
    MultiErrorAppend errs [errorsNew "\"storage_uuid\" must be specified"] else errs
  errs

/-- Lines 105-110: the timeout string is parsed and the result stored. -/
def parseTimeout {ρ : Type} (env : Env ρ) (c : Config) (errs : Option MultiError) :
    Config × Option MultiError :=
  let r := env.ParseDuration c.RawStateTimeoutDuration
  let errs := match r.2 with
    | some err => MultiErrorAppend errs [errorfParseTimeout err]
    | none => errs
  ({ c with StateTimeoutDuration := r.1 }, errs)

/-- Lines 69-110: the validation section, the four steps in source order. -/
def validate {ρ : Type} (env : Env ρ) (c : Config) : Config × Option MultiError :=
  let s := prepareComm env c
  let errs := checkKeyFiles env s.1 s.2
  let errs := checkRequired s.1 errs
  parseTimeout env s.1 errs

/-- The function `NewConfig` (lines 46-117). -/
def NewConfig {ρ : Type} (env : Env ρ) (raws : List ρ) : Outcome :=
  let d := env.Decode Config.zero raws
  match d.2 with
  | some err => Outcome.returned none (some (ReturnedError.plain err))
  | none =>
    let v := validate env (applyDefaults d.1)
    match v.2 with
    | none => Outcome.nilDereference
    | some errs =>
      if errs.Errors.length > 0 then
        Outcome.returned none (some (ReturnedError.multi errs))
      else
        Outcome.returned (some v.1) none

/-! ## What each check adds to the accumulator -/

/-- The errors appended by lines 73-82. -/
def keyFileErrors {ρ : Type} (env : Env ρ) (c : Config) : List GoError :=
  if c.SSHPrivateKeyFile ≠ "" ∧ c.SSHPublicKeyFile ≠ "" then
    (if IsNotExist (env.Stat c.SSHPrivateKeyFile) then
      [errorsNew "ssh_private_keyfile does not exist"] else []) ++
    (if IsNotExist (env.Stat c.SSHPublicKeyFile) then
      [errorsNew "ssh_public_keyfile does not exist"] else [])
  else []

/-- The errors appended by lines 84-103. -/
def requiredErrors (c : Config) : List GoError :=
  (if c.Username = "" then [errorsNew "\"username\" must be specified"] else []) ++
  (if c.Password = "" then [errorsNew "\"password\" must be specified"] else []) ++
  (if c.Zone = "" then [errorsNew "\"zone\" must be specified"] else []) ++
  (if c.StorageUUID = "" then [errorsNew "\"storage_uuid\" must be specified"] else [])

/-- The errors appended by lines 105-109. -/
def timeoutErrors {ρ : Type} (env : Env ρ) (c : Config) : List GoError :=
  match (env.ParseDuration c.RawStateTimeoutDuration).2 with
  | some err => [errorfParseTimeout err]
  | none => []

/-- The errors returned by the communicator's `Prepare` at line 71. -/
def prepareErrors {ρ : Type} (env : Env ρ) (c : Config) : List GoError :=
  (env.Prepare c.Comm c.ctx).2.2

/-- The whole content of the accumulator at line 112. -/
def collectedErrors {ρ : Type} (env : Env ρ) (c : Config) : List GoError :=
  prepareErrors env c ++ keyFileErrors env c ++ requiredErrors c ++ timeoutErrors env c

/-! ## A concrete environment

Used to run `NewConfig` on examples.  A raw input is a typed configuration
whose fields overwrite the target, or `none` for an input that does not decode;
the communicator's `Prepare` changes nothing and asks for a username; the disk
holds the two files under `/keys`; the durations `5m` and `10m` parse. -/

/-- Decoding in the example environment. -/
def exampleDecode (target : Config) : List (Option Config) → Config × Option GoError
  | [] => (target, none)
  | none :: _ => (target, some ⟨"1 error(s) decoding"⟩)
  | some c :: rest => exampleDecode c rest

/-- The example environment. -/
def exampleEnv : Env (Option Config) where
  Decode := exampleDecode
  Prepare := fun comm ctx =>
    (comm, ctx, if comm.SSHUsername = "" then [⟨"An ssh_username must be specified"⟩] else [])
  Stat := fun path =>
    if path = "/keys/id_rsa" ∨ path = "/keys/id_rsa.pub" then none
    else some StatError.notExist
  ParseDuration := fun s =>
    if s = "5m" then (300000000000, none)
    else if s = "10m" then (600000000000, none)
    else (0, some ⟨"time: invalid duration " ++ s⟩)

/-- An input with the four required fields and nothing else. -/
def minimalInput : Config :=
  { Config.zero with Username := "user", Password := "secret", Zone := "fi-hel1",
                     StorageUUID := "01000000-0000-4000-8000-000030060200" }

/-- The minimal input without username and zone. -/
def missingUserAndZone : Config :=
  { minimalInput with Username := "", Zone := "" }

/-- The minimal input with both key paths set, only the private key on disk. -/
def missingPublicKey : Config :=
  { minimalInput with SSHPrivateKeyFile := "/keys/id_rsa", SSHPublicKeyFile := "/keys/lost.pub" }

/-- An example environment that differs from `exampleEnv` in everything but
decoding: the communicator always complains, nothing is on disk, no duration
parses. -/
def strictEnv : Env (Option Config) where
  Decode := exampleDecode
  Prepare := fun comm ctx => (comm, ctx, [⟨"communicator not available"⟩])
  Stat := fun _ => some StatError.notExist
  ParseDuration := fun s => (0, some ⟨"time: invalid duration " ++ s⟩)

/-- The minimal input with an access username of the user's choosing. -/
def customSSHUser : Config :=
  { minimalInput with Comm := { SSHUsername := "admin", Other := [] } }

/-- The minimal input with only the private key path set, to a file that is
not on disk. -/
def onlyPrivateKey : Config :=
  { minimalInput with SSHPrivateKeyFile := "/keys/lost" }

/-- The minimal input with a storage size and a timeout of the user's. -/
def sizedInput : Config :=
  { minimalInput with StorageSize := 100, RawStateTimeoutDuration := "10m" }

/-- The minimal input without a password and with a timeout that does not
parse. -/
def badTimeout : Config :=
  { minimalInput with Password := "", RawStateTimeoutDuration := "notaduration" }

/-- The minimal input with a naming prefix. -/
def prefixedInput : Config :=
  { minimalInput with TemplatePrefix := "packer-build" }

/-! ## Helper lemmas -/

theorem MultiErrorAppend_some (m : MultiError) (errs : List GoError) :
    MultiErrorAppend (some m) errs = some ⟨m.Errors ++ errs⟩ := rfl

theorem MultiErrorAppend_none (errs : List GoError) :
    MultiErrorAppend none errs = some ⟨errs⟩ := rfl

theorem checkKeyFiles_some {ρ : Type} (env : Env ρ) (c : Config) (m : MultiError) :
    checkKeyFiles env c (some m) = some ⟨m.Errors ++ keyFileErrors env c⟩ := by
  unfold checkKeyFiles keyFileErrors
  split_ifs <;> simp [MultiErrorAppend]

theorem checkRequired_some (c : Config) (m : MultiError) :
    checkRequired c (some m) = some ⟨m.Errors ++ requiredErrors c⟩ := by
  unfold checkRequired requiredErrors
  split_ifs <;> simp [MultiErrorAppend]

theorem parseTimeout_some {ρ : Type} (env : Env ρ) (c : Config) (m : MultiError) :
    (parseTimeout env c (some m)).2 = some ⟨m.Errors ++ timeoutErrors env c⟩ := by
  rcases h : env.ParseDuration c.RawStateTimeoutDuration with ⟨d, e⟩
  cases e <;> simp [parseTimeout, timeoutErrors, h, MultiErrorAppend]

/-- The accumulator that reaches line 112 holds the errors of the four steps,
in source order. -/
theorem validate_errs {ρ : Type} (env : Env ρ) (c : Config) :
    (validate env c).2 = some ⟨collectedErrors env c⟩ := by
  unfold validate prepareComm collectedErrors
  simp only [MultiErrorAppend_none, checkKeyFiles_some, checkRequired_some, parseTimeout_some]
  rfl

/-- The configuration that reaches line 112. -/
theorem validate_cfg {ρ : Type} (env : Env ρ) (c : Config) :
    (validate env c).1 =
      { c with Comm := (env.Prepare c.Comm c.ctx).1, ctx := (env.Prepare c.Comm c.ctx).2.1,
               StateTimeoutDuration := (env.ParseDuration c.RawStateTimeoutDuration).1 } := rfl

theorem NewConfig_of_decode_error {ρ : Type} (env : Env ρ) (raws : List ρ) (err : GoError)
    (hd : (env.Decode Config.zero raws).2 = some err) :
    NewConfig env raws = Outcome.returned none (some (ReturnedError.plain err)) := by
  simp [NewConfig, hd]

/-- After a successful decode the outcome is decided by the collected errors. -/
theorem NewConfig_of_decoded {ρ : Type} (env : Env ρ) (raws : List ρ)
    (hd : (env.Decode Config.zero raws).2 = none) :
    NewConfig env raws =
      if collectedErrors env (applyDefaults (env.Decode Config.zero raws).1) = [] then
        Outcome.returned (some (validate env (applyDefaults (env.Decode Config.zero raws).1)).1) none
      else
        Outcome.returned none (some (ReturnedError.multi
          ⟨collectedErrors env (applyDefaults (env.Decode Config.zero raws).1)⟩)) := by
  simp only [NewConfig, hd, validate_errs]
  generalize collectedErrors env (applyDefaults (env.Decode Config.zero raws).1) = L
  cases L <;> simp

/-! ### Telling the error values apart -/

theorem errorfParseTimeout_head (err : GoError) :
    (errorfParseTimeout err).msg.data.head? = some 'F' := by
  simp [errorfParseTimeout, String.data_append]

theorem errorfParseTimeout_ne_errorsNew (err : GoError) (t : String)
    (ht : t.data.head? ≠ some 'F') : errorfParseTimeout err ≠ errorsNew t := by
  intro h
  apply ht
  rw [← errorfParseTimeout_head err, h]
  rfl

theorem errorfParseTimeout_injective (a b : GoError)
    (h : errorfParseTimeout a = errorfParseTimeout b) : a = b := by
  cases a with | mk x => ?_
  cases b with | mk y => ?_
  have h1 := congrArg (fun e => e.msg.data) h
  simp only [errorfParseTimeout, String.data_append] at h1
  have h3 : x = y := String.ext (List.append_cancel_left h1)
  rw [h3]

/-! ### Counting one error value in the accumulator -/

theorem collectedErrors_count {ρ : Type} (env : Env ρ) (c : Config) (e : GoError) :
    (collectedErrors env c).count e =
      (prepareErrors env c).count e + (keyFileErrors env c).count e +
        (requiredErrors c).count e + (timeoutErrors env c).count e := by
  simp only [collectedErrors, List.count_append]

theorem timeoutErrors_count_errorsNew {ρ : Type} (env : Env ρ) (c : Config) (t : String)
    (ht : t.data.head? ≠ some 'F') : (timeoutErrors env c).count (errorsNew t) = 0 := by
  unfold timeoutErrors
  split
  · simp [List.count_cons, errorfParseTimeout_ne_errorsNew _ t ht]
  · simp

theorem keyFileErrors_count_private {ρ : Type} (env : Env ρ) (c : Config) :
    (keyFileErrors env c).count (errorsNew "ssh_private_keyfile does not exist") =
      if c.SSHPrivateKeyFile ≠ "" ∧ c.SSHPublicKeyFile ≠ "" ∧
          IsNotExist (env.Stat c.SSHPrivateKeyFile) = true then 1 else 0 := by
  unfold keyFileErrors
  split_ifs <;> simp_all [errorsNew, List.count_cons]

theorem keyFileErrors_count_public {ρ : Type} (env : Env ρ) (c : Config) :
    (keyFileErrors env c).count (errorsNew "ssh_public_keyfile does not exist") =
      if c.SSHPrivateKeyFile ≠ "" ∧ c.SSHPublicKeyFile ≠ "" ∧
          IsNotExist (env.Stat c.SSHPublicKeyFile) = true then 1 else 0 := by
  unfold keyFileErrors
  split_ifs <;> simp_all [errorsNew, List.count_cons]

theorem requiredErrors_count_keyFile (c : Config) (t : String)
    (ht : t = "ssh_private_keyfile does not exist" ∨ t = "ssh_public_keyfile does not exist") :
    (requiredErrors c).count (errorsNew t) = 0 := by
  unfold requiredErrors
  rcases ht with rfl | rfl <;> split_ifs <;> simp [errorsNew, List.count_cons]

theorem keyFileErrors_count_required {ρ : Type} (env : Env ρ) (c : Config) (t : String)
    (ht : t = "\"username\" must be specified" ∨ t = "\"password\" must be specified" ∨
      t = "\"zone\" must be specified" ∨ t = "\"storage_uuid\" must be specified") :
    (keyFileErrors env c).count (errorsNew t) = 0 := by
  unfold keyFileErrors
  rcases ht with rfl | rfl | rfl | rfl <;> split_ifs <;> simp [errorsNew, List.count_cons]

theorem requiredErrors_count_username (c : Config) :
    (requiredErrors c).count (errorsNew "\"username\" must be specified") =
      if c.Username = "" then 1 else 0 := by
  unfold requiredErrors
  split_ifs <;> simp [errorsNew, List.count_cons]

theorem requiredErrors_count_password (c : Config) :
    (requiredErrors c).count (errorsNew "\"password\" must be specified") =
      if c.Password = "" then 1 else 0 := by
  unfold requiredErrors
  split_ifs <;> simp [errorsNew, List.count_cons]

theorem requiredErrors_count_zone (c : Config) :
    (requiredErrors c).count (errorsNew "\"zone\" must be specified") =
      if c.Zone = "" then 1 else 0 := by
  unfold requiredErrors
  split_ifs <;> simp [errorsNew, List.count_cons]

theorem requiredErrors_count_storage_uuid (c : Config) :
    (requiredErrors c).count (errorsNew "\"storage_uuid\" must be specified") =
      if c.StorageUUID = "" then 1 else 0 := by
  unfold requiredErrors
  split_ifs <;> simp [errorsNew, List.count_cons]

/-! ### The defaults leave the validated fields alone -/

theorem applyDefaults_fields (c : Config) :
    (applyDefaults c).Username = c.Username ∧ (applyDefaults c).Password = c.Password ∧
    (applyDefaults c).Zone = c.Zone ∧ (applyDefaults c).StorageUUID = c.StorageUUID ∧
    (applyDefaults c).SSHPrivateKeyFile = c.SSHPrivateKeyFile ∧
    (applyDefaults c).SSHPublicKeyFile = c.SSHPublicKeyFile ∧
    (applyDefaults c).TemplatePrefix = c.TemplatePrefix ∧
    (applyDefaults c).ctx = c.ctx ∧ (applyDefaults c).PackerConfig = c.PackerConfig ∧
    (applyDefaults c).Comm = { c.Comm with SSHUsername := "root" } := by
  by_cases h1 : c.StorageSize = 0 <;> by_cases h2 : c.RawStateTimeoutDuration = "" <;>
    simp [applyDefaults, h1, h2]

/-- The outcome after a successful decode, in terms of the decoded value. -/
theorem NewConfig_of_decoded_eq {ρ : Type} (env : Env ρ) (raws : List ρ) (d : Config)
    (hd : env.Decode Config.zero raws = (d, none)) :
    NewConfig env raws =
      if collectedErrors env (applyDefaults d) = [] then
        Outcome.returned (some (validate env (applyDefaults d)).1) none
      else
        Outcome.returned none (some (ReturnedError.multi ⟨collectedErrors env (applyDefaults d)⟩)) := by
  have h := NewConfig_of_decoded env raws (by rw [hd])
  rw [hd] at h
  exact h

theorem NewConfig_fails_of_errors {ρ : Type} (env : Env ρ) (raws : List ρ) (d : Config)
    (hd : env.Decode Config.zero raws = (d, none))
    (hne : collectedErrors env (applyDefaults d) ≠ []) :
    NewConfig env raws =
      Outcome.returned none (some (ReturnedError.multi ⟨collectedErrors env (applyDefaults d)⟩)) := by
  rw [NewConfig_of_decoded_eq env raws d hd, if_neg hne]

theorem ne_nil_of_count_pos (l : List GoError) (e : GoError) (n : Nat)
    (h : l.count e = n + 1) : l ≠ [] := by
  intro h0
  rw [h0] at h
  simp at h

/-! ### When a check adds nothing -/

theorem keyFileErrors_eq_nil {ρ : Type} (env : Env ρ) (c : Config) :
    keyFileErrors env c = [] ↔
      ¬ (c.SSHPrivateKeyFile ≠ "" ∧ c.SSHPublicKeyFile ≠ "" ∧
        (IsNotExist (env.Stat c.SSHPrivateKeyFile) = true ∨
          IsNotExist (env.Stat c.SSHPublicKeyFile) = true)) := by
  unfold keyFileErrors
  split_ifs <;> simp_all

theorem requiredErrors_eq_nil (c : Config) :
    requiredErrors c = [] ↔
      c.Username ≠ "" ∧ c.Password ≠ "" ∧ c.Zone ≠ "" ∧ c.StorageUUID ≠ "" := by
  unfold requiredErrors
  split_ifs <;> simp_all

theorem timeoutErrors_eq_nil {ρ : Type} (env : Env ρ) (c : Config) :
    timeoutErrors env c = [] ↔ (env.ParseDuration c.RawStateTimeoutDuration).2 = none := by
  unfold timeoutErrors
  split <;> simp_all

theorem collectedErrors_eq_nil {ρ : Type} (env : Env ρ) (c : Config) :
    collectedErrors env c = [] ↔
      prepareErrors env c = [] ∧ keyFileErrors env c = [] ∧ requiredErrors c = [] ∧
        timeoutErrors env c = [] := by
  simp [collectedErrors, and_assoc]

/-- A configuration is returned exactly when decoding succeeded and no check
added an error; it is the validated one. -/
theorem NewConfig_success_iff {ρ : Type} (env : Env ρ) (raws : List ρ) (cfg : Config) :
    NewConfig env raws = Outcome.returned (some cfg) none ↔
      ∃ d, env.Decode Config.zero raws = (d, none) ∧
        collectedErrors env (applyDefaults d) = [] ∧
        cfg = (validate env (applyDefaults d)).1 := by
  rcases hdec : env.Decode Config.zero raws with ⟨d, e⟩
  cases e with
  | some err =>
    rw [NewConfig_of_decode_error env raws err (by rw [hdec])]
    simp
  | none =>
    rw [NewConfig_of_decoded_eq env raws d hdec]
    by_cases h : collectedErrors env (applyDefaults d) = []
    · rw [if_pos h]
      constructor
      · intro hc
        injection hc with hc
        injection hc with hc
        exact ⟨d, rfl, h, hc.symm⟩
      · rintro ⟨d2, hd2, -, hc⟩
        injection hd2 with hd2
        subst hd2
        rw [hc]
    · rw [if_neg h]
      constructor
      · intro hc
        injection hc with hc
        cases hc
      · rintro ⟨d2, hd2, h2, -⟩
        injection hd2 with hd2
        subst hd2
        exact absurd h2 h

/-! ### The naming prefix passes through -/

theorem applyDefaults_withTemplate (c : Config) (p : String) :
    applyDefaults { c with TemplatePrefix := p } =
      { applyDefaults c with TemplatePrefix := p } := by
  by_cases h1 : c.StorageSize = 0 <;> by_cases h2 : c.RawStateTimeoutDuration = "" <;>
    simp [applyDefaults, h1, h2]

theorem collectedErrors_withTemplate {ρ : Type} (env : Env ρ) (c : Config) (p : String) :
    collectedErrors env { c with TemplatePrefix := p } = collectedErrors env c := rfl

theorem validate_withTemplate {ρ : Type} (env : Env ρ) (c : Config) (p : String) :
    (validate env { c with TemplatePrefix := p }).1 =
      { (validate env c).1 with TemplatePrefix := p } := rfl

theorem applyDefaults_raw (c : Config) :
    (applyDefaults c).RawStateTimeoutDuration =
      if c.RawStateTimeoutDuration = "" then "5m" else c.RawStateTimeoutDuration := by
  by_cases h1 : c.StorageSize = 0 <;> by_cases h2 : c.RawStateTimeoutDuration = "" <;>
    simp [applyDefaults, h1, h2]

theorem applyDefaults_size (c : Config) :
    (applyDefaults c).StorageSize = if c.StorageSize = 0 then 30 else c.StorageSize := by
  by_cases h1 : c.StorageSize = 0 <;> by_cases h2 : c.RawStateTimeoutDuration = "" <;>
    simp [applyDefaults, h1, h2]

/-! ### The other checks do not look at the timeout string -/

theorem checks_ignore_timeout {ρ : Type} (env : Env ρ) (c : Config) (t : String) :
    prepareErrors env (applyDefaults { c with RawStateTimeoutDuration := t }) =
      prepareErrors env (applyDefaults c) ∧
    keyFileErrors env (applyDefaults { c with RawStateTimeoutDuration := t }) =
      keyFileErrors env (applyDefaults c) ∧
    requiredErrors (applyDefaults { c with RawStateTimeoutDuration := t }) =
      requiredErrors (applyDefaults c) := by
  by_cases h1 : c.StorageSize = 0 <;> by_cases h2 : c.RawStateTimeoutDuration = "" <;>
    by_cases h3 : t = "" <;>
    simp [applyDefaults, prepareErrors, keyFileErrors, requiredErrors, h1, h2, h3]

theorem keyFileErrors_count_errorf {ρ : Type} (env : Env ρ) (c : Config) (e : GoError) :
    (keyFileErrors env c).count (errorfParseTimeout e) = 0 := by
  have h1 := (errorfParseTimeout_ne_errorsNew e "ssh_private_keyfile does not exist"
    (by decide)).symm
  have h2 := (errorfParseTimeout_ne_errorsNew e "ssh_public_keyfile does not exist"
    (by decide)).symm
  unfold keyFileErrors
  split_ifs <;> simp [List.count_cons, h1, h2]

theorem requiredErrors_count_errorf (c : Config) (e : GoError) :
    (requiredErrors c).count (errorfParseTimeout e) = 0 := by
  have h1 := (errorfParseTimeout_ne_errorsNew e "\"username\" must be specified"
    (by decide)).symm
  have h2 := (errorfParseTimeout_ne_errorsNew e "\"password\" must be specified"
    (by decide)).symm
  have h3 := (errorfParseTimeout_ne_errorsNew e "\"zone\" must be specified"
    (by decide)).symm
  have h4 := (errorfParseTimeout_ne_errorsNew e "\"storage_uuid\" must be specified"
    (by decide)).symm
  unfold requiredErrors
  split_ifs <;> simp [List.count_cons, h1, h2, h3, h4]

theorem timeoutErrors_of_error {ρ : Type} (env : Env ρ) (c : Config) (perr : GoError)
    (h : (env.ParseDuration c.RawStateTimeoutDuration).2 = some perr) :
    timeoutErrors env c = [errorfParseTimeout perr] := by
  unfold timeoutErrors
  rw [h]

/-! ## The claims -/

/-- C1: after a successful decode, each of the four required fields (username,
password, zone, storage_uuid) is checked on its own: when the field is empty
NewConfig fails and the checks of NewConfig add exactly one error naming the
field to the aggregate (so the aggregate holds it once more than the
communicator's own errors do); when the field is non-empty they add none.  The
number of such errors added is the number of empty required fields. -/
theorem C1_required_fields_reported {ρ : Type} (env : Env ρ) (raws : List ρ) (d : Config)
    (hd : env.Decode Config.zero raws = (d, none)) :
    ∃ m : MultiError,
      (validate env (applyDefaults d)).2 = some m ∧
      (m.Errors ≠ [] →
        NewConfig env raws = Outcome.returned none (some (ReturnedError.multi m))) ∧
      (d.Username = "" → m.Errors ≠ [] ∧
        m.Errors.count (errorsNew "\"username\" must be specified") =
          (prepareErrors env (applyDefaults d)).count
            (errorsNew "\"username\" must be specified") + 1) ∧
      (d.Username ≠ "" →
        m.Errors.count (errorsNew "\"username\" must be specified") =
          (prepareErrors env (applyDefaults d)).count
            (errorsNew "\"username\" must be specified")) ∧
      (d.Password = "" → m.Errors ≠ [] ∧
        m.Errors.count (errorsNew "\"password\" must be specified") =
          (prepareErrors env (applyDefaults d)).count
            (errorsNew "\"password\" must be specified") + 1) ∧
      (d.Password ≠ "" →
        m.Errors.count (errorsNew "\"password\" must be specified") =
          (prepareErrors env (applyDefaults d)).count
            (errorsNew "\"password\" must be specified")) ∧
      (d.Zone = "" → m.Errors ≠ [] ∧
        m.Errors.count (errorsNew "\"zone\" must be specified") =
          (prepareErrors env (applyDefaults d)).count
            (errorsNew "\"zone\" must be specified") + 1) ∧
      (d.Zone ≠ "" →
        m.Errors.count (errorsNew "\"zone\" must be specified") =
          (prepareErrors env (applyDefaults d)).count
            (errorsNew "\"zone\" must be specified")) ∧
      (d.StorageUUID = "" → m.Errors ≠ [] ∧
        m.Errors.count (errorsNew "\"storage_uuid\" must be specified") =
          (prepareErrors env (applyDefaults d)).count
            (errorsNew "\"storage_uuid\" must be specified") + 1) ∧
      (d.StorageUUID ≠ "" →
        m.Errors.count (errorsNew "\"storage_uuid\" must be specified") =
          (prepareErrors env (applyDefaults d)).count
            (errorsNew "\"storage_uuid\" must be specified")) ∧
      m.Errors.count (errorsNew "\"username\" must be specified") +
        m.Errors.count (errorsNew "\"password\" must be specified") +
        m.Errors.count (errorsNew "\"zone\" must be specified") +
        m.Errors.count (errorsNew "\"storage_uuid\" must be specified") =
      (prepareErrors env (applyDefaults d)).count (errorsNew "\"username\" must be specified") +
        (prepareErrors env (applyDefaults d)).count (errorsNew "\"password\" must be specified") +
        (prepareErrors env (applyDefaults d)).count (errorsNew "\"zone\" must be specified") +
        (prepareErrors env (applyDefaults d)).count
          (errorsNew "\"storage_uuid\" must be specified") +
        [d.Username, d.Password, d.Zone, d.StorageUUID].count "" := by
  obtain ⟨hU, hP, hZ, hS, -⟩ := applyDefaults_fields d
  have cU : (collectedErrors env (applyDefaults d)).count
        (errorsNew "\"username\" must be specified") =
      (prepareErrors env (applyDefaults d)).count (errorsNew "\"username\" must be specified") +
        (if d.Username = "" then 1 else 0) := by
    rw [collectedErrors_count, keyFileErrors_count_required _ _ _ (by simp),
      requiredErrors_count_username, timeoutErrors_count_errorsNew _ _ _ (by decide), hU]
    simp
  have cP : (collectedErrors env (applyDefaults d)).count
        (errorsNew "\"password\" must be specified") =
      (prepareErrors env (applyDefaults d)).count (errorsNew "\"password\" must be specified") +
        (if d.Password = "" then 1 else 0) := by
    rw [collectedErrors_count, keyFileErrors_count_required _ _ _ (by simp),
      requiredErrors_count_password, timeoutErrors_count_errorsNew _ _ _ (by decide), hP]
    simp
  have cZ : (collectedErrors env (applyDefaults d)).count
        (errorsNew "\"zone\" must be specified") =
      (prepareErrors env (applyDefaults d)).count (errorsNew "\"zone\" must be specified") +
        (if d.Zone = "" then 1 else 0) := by
    rw [collectedErrors_count, keyFileErrors_count_required _ _ _ (by simp),
      requiredErrors_count_zone, timeoutErrors_count_errorsNew _ _ _ (by decide), hZ]
    simp
  have cS : (collectedErrors env (applyDefaults d)).count
        (errorsNew "\"storage_uuid\" must be specified") =
      (prepareErrors env (applyDefaults d)).count
        (errorsNew "\"storage_uuid\" must be specified") +
        (if d.StorageUUID = "" then 1 else 0) := by
    rw [collectedErrors_count, keyFileErrors_count_required _ _ _ (by simp),
      requiredErrors_count_storage_uuid, timeoutErrors_count_errorsNew _ _ _ (by decide), hS]
    simp
  refine ⟨⟨collectedErrors env (applyDefaults d)⟩, validate_errs _ _,
    fun hne => NewConfig_fails_of_errors env raws d hd hne, ?_, ?_, ?_, ?_, ?_, ?_, ?_, ?_, ?_⟩
  · intro h
    rw [if_pos h] at cU
    exact ⟨ne_nil_of_count_pos _ _ _ cU, cU⟩
  · intro h
    rw [if_neg h] at cU
    exact cU
  · intro h
    rw [if_pos h] at cP
    exact ⟨ne_nil_of_count_pos _ _ _ cP, cP⟩
  · intro h
    rw [if_neg h] at cP
    exact cP
  · intro h
    rw [if_pos h] at cZ
    exact ⟨ne_nil_of_count_pos _ _ _ cZ, cZ⟩
  · intro h
    rw [if_neg h] at cZ
    exact cZ
  · intro h
    rw [if_pos h] at cS
    exact ⟨ne_nil_of_count_pos _ _ _ cS, cS⟩
  · intro h
    rw [if_neg h] at cS
    exact cS
  · show (collectedErrors env (applyDefaults d)).count _ + (collectedErrors env (applyDefaults d)).count _ +
      (collectedErrors env (applyDefaults d)).count _ + (collectedErrors env (applyDefaults d)).count _ = _
    rw [cU, cP, cZ, cS]
    simp only [List.count_cons, List.count_nil]
    by_cases h1 : d.Username = "" <;> by_cases h2 : d.Password = "" <;>
      by_cases h3 : d.Zone = "" <;> by_cases h4 : d.StorageUUID = "" <;>
      simp [h1, h2, h3, h4] <;> omega

/-- C1 on an input without username and zone: NewConfig fails, the aggregate
names each of the two once and names neither password nor storage_uuid. -/
theorem C1_required_fields_reported_witness :
    ∃ m : MultiError,
      NewConfig exampleEnv [some missingUserAndZone] =
        Outcome.returned none (some (ReturnedError.multi m)) ∧
      m.Errors.count (errorsNew "\"username\" must be specified") = 1 ∧
      m.Errors.count (errorsNew "\"password\" must be specified") = 0 ∧
      m.Errors.count (errorsNew "\"zone\" must be specified") = 1 ∧
      m.Errors.count (errorsNew "\"storage_uuid\" must be specified") = 0 := by
  obtain ⟨m, -, hf, hU, -, -, hP, hZ, -, -, hS, -⟩ :=
    C1_required_fields_reported exampleEnv [some missingUserAndZone] missingUserAndZone
      (by decide)
  have h1 := hU (by decide)
  have h2 := hP (by decide)
  have h3 := hZ (by decide)
  have h4 := hS (by decide)
  refine ⟨m, hf h1.1, ?_, ?_, ?_, ?_⟩
  · rw [h1.2]; decide
  · rw [h2]; decide
  · rw [h3.2]; decide
  · rw [h4]; decide

/-- C6: after a successful decode, when at most one of ssh_private_keyfile and
ssh_public_keyfile is non-empty the checks of NewConfig add no file-existence
error, whatever `os.Stat` would answer; when both are non-empty each path is
checked on its own and adds exactly one error naming its own field when
`os.Stat` reports it missing, and none otherwise.  The two errors are
different values. -/
theorem C6_key_file_checks {ρ : Type} (env : Env ρ) (raws : List ρ) (d : Config)
    (hd : env.Decode Config.zero raws = (d, none)) :
    ∃ m : MultiError,
      (validate env (applyDefaults d)).2 = some m ∧
      (m.Errors ≠ [] →
        NewConfig env raws = Outcome.returned none (some (ReturnedError.multi m))) ∧
      (d.SSHPrivateKeyFile = "" ∨ d.SSHPublicKeyFile = "" →
        m.Errors.count (errorsNew "ssh_private_keyfile does not exist") =
          (prepareErrors env (applyDefaults d)).count
            (errorsNew "ssh_private_keyfile does not exist") ∧
        m.Errors.count (errorsNew "ssh_public_keyfile does not exist") =
          (prepareErrors env (applyDefaults d)).count
            (errorsNew "ssh_public_keyfile does not exist")) ∧
      (d.SSHPrivateKeyFile ≠ "" → d.SSHPublicKeyFile ≠ "" →
        m.Errors.count (errorsNew "ssh_private_keyfile does not exist") =
          (prepareErrors env (applyDefaults d)).count
            (errorsNew "ssh_private_keyfile does not exist") +
          (if IsNotExist (env.Stat d.SSHPrivateKeyFile) = true then 1 else 0) ∧
        m.Errors.count (errorsNew "ssh_public_keyfile does not exist") =
          (prepareErrors env (applyDefaults d)).count
            (errorsNew "ssh_public_keyfile does not exist") +
          (if IsNotExist (env.Stat d.SSHPublicKeyFile) = true then 1 else 0)) ∧
      errorsNew "ssh_private_keyfile does not exist" ≠
        errorsNew "ssh_public_keyfile does not exist" := by
  obtain ⟨-, -, -, -, hA, hB, -⟩ := applyDefaults_fields d
  have cA := collectedErrors_count env (applyDefaults d)
    (errorsNew "ssh_private_keyfile does not exist")
  have cB := collectedErrors_count env (applyDefaults d)
    (errorsNew "ssh_public_keyfile does not exist")
  rw [keyFileErrors_count_private, requiredErrors_count_keyFile _ _ (by simp),
    timeoutErrors_count_errorsNew _ _ _ (by decide), hA, hB] at cA
  rw [keyFileErrors_count_public, requiredErrors_count_keyFile _ _ (by simp),
    timeoutErrors_count_errorsNew _ _ _ (by decide), hA, hB] at cB
  refine ⟨⟨collectedErrors env (applyDefaults d)⟩, validate_errs _ _,
    fun hne => NewConfig_fails_of_errors env raws d hd hne, ?_, ?_, by decide⟩
  · intro h
    have hn : ¬ (d.SSHPrivateKeyFile ≠ "" ∧ d.SSHPublicKeyFile ≠ "" ∧
        IsNotExist (env.Stat d.SSHPrivateKeyFile) = true) := by
      rintro ⟨h1, h2, -⟩
      rcases h with h | h
      · exact h1 h
      · exact h2 h
    have hn2 : ¬ (d.SSHPrivateKeyFile ≠ "" ∧ d.SSHPublicKeyFile ≠ "" ∧
        IsNotExist (env.Stat d.SSHPublicKeyFile) = true) := by
      rintro ⟨h1, h2, -⟩
      rcases h with h | h
      · exact h1 h
      · exact h2 h
    rw [if_neg hn] at cA
    rw [if_neg hn2] at cB
    exact ⟨cA, cB⟩
  · intro h1 h2
    constructor
    · rw [cA]
      by_cases h3 : IsNotExist (env.Stat d.SSHPrivateKeyFile) = true <;> simp [h1, h2, h3]
    · rw [cB]
      by_cases h3 : IsNotExist (env.Stat d.SSHPublicKeyFile) = true <;> simp [h1, h2, h3]

/-- C6 on an input with both key paths set and only the private key on disk:
NewConfig fails and the aggregate names the public key once and the private
key not at all. -/
theorem C6_key_file_checks_witness :
    ∃ m : MultiError,
      NewConfig exampleEnv [some missingPublicKey] =
        Outcome.returned none (some (ReturnedError.multi m)) ∧
      m.Errors.count (errorsNew "ssh_private_keyfile does not exist") = 0 ∧
      m.Errors.count (errorsNew "ssh_public_keyfile does not exist") = 1 := by
  obtain ⟨m, -, hf, -, hB, -⟩ :=
    C6_key_file_checks exampleEnv [some missingPublicKey] missingPublicKey (by decide)
  have h := hB (by decide) (by decide)
  have h2 : m.Errors.count (errorsNew "ssh_public_keyfile does not exist") = 1 := by
    rw [h.2]; decide
  refine ⟨m, hf (ne_nil_of_count_pos _ _ 0 h2), ?_, h2⟩
  rw [h.1]; decide

/-- C2: after a successful decode NewConfig returns either a configuration and
a nil error, or a nil configuration and a non-empty aggregate of validation
errors, never both and never neither; and it returns the configuration exactly
when the communicator's Prepare returned no error, it is not the case that
both key paths are non-empty with one of them reported missing, the four
required fields are non-empty, and the timeout string parses. -/
theorem C2_no_partial_success {ρ : Type} (env : Env ρ) (raws : List ρ) (d : Config)
    (hd : env.Decode Config.zero raws = (d, none)) :
    ∃ (co : Option Config) (eo : Option ReturnedError),
      NewConfig env raws = Outcome.returned co eo ∧
      (((∃ cfg, co = some cfg) ∧ eo = none) ∨
        (co = none ∧ ∃ m : MultiError, eo = some (ReturnedError.multi m) ∧ m.Errors ≠ [])) ∧
      ((∃ cfg, co = some cfg) ↔
        (prepareErrors env (applyDefaults d) = [] ∧
         ¬ (d.SSHPrivateKeyFile ≠ "" ∧ d.SSHPublicKeyFile ≠ "" ∧
            (IsNotExist (env.Stat d.SSHPrivateKeyFile) = true ∨
              IsNotExist (env.Stat d.SSHPublicKeyFile) = true)) ∧
         (d.Username ≠ "" ∧ d.Password ≠ "" ∧ d.Zone ≠ "" ∧ d.StorageUUID ≠ "") ∧
         (env.ParseDuration (applyDefaults d).RawStateTimeoutDuration).2 = none)) := by
  obtain ⟨hU, hP, hZ, hS, hA, hB, -⟩ := applyDefaults_fields d
  have hnil := collectedErrors_eq_nil env (applyDefaults d)
  rw [keyFileErrors_eq_nil, requiredErrors_eq_nil, timeoutErrors_eq_nil,
    hU, hP, hZ, hS, hA, hB] at hnil
  by_cases h : collectedErrors env (applyDefaults d) = []
  · refine ⟨some (validate env (applyDefaults d)).1, none, ?_, Or.inl ⟨⟨_, rfl⟩, rfl⟩, ?_⟩
    · rw [NewConfig_of_decoded_eq env raws d hd, if_pos h]
    · exact ⟨fun _ => hnil.mp h, fun _ => ⟨_, rfl⟩⟩
  · refine ⟨none, some (ReturnedError.multi ⟨collectedErrors env (applyDefaults d)⟩),
      NewConfig_fails_of_errors env raws d hd h, Or.inr ⟨rfl, _, rfl, h⟩, ?_⟩
    constructor
    · rintro ⟨cfg, hc⟩
      cases hc
    · intro hall
      exact absurd (hnil.mpr hall) h

/-- C2 on the minimal input: the defaulted configuration comes back with a
nil error. -/
theorem C2_no_partial_success_witness :
    ∃ (co : Option Config) (eo : Option ReturnedError),
      NewConfig exampleEnv [some minimalInput] = Outcome.returned co eo ∧
      (((∃ cfg, co = some cfg) ∧ eo = none) ∨
        (co = none ∧ ∃ m : MultiError, eo = some (ReturnedError.multi m) ∧ m.Errors ≠ [])) ∧
      ((∃ cfg, co = some cfg) ↔
        (prepareErrors exampleEnv (applyDefaults minimalInput) = [] ∧
         ¬ (minimalInput.SSHPrivateKeyFile ≠ "" ∧ minimalInput.SSHPublicKeyFile ≠ "" ∧
            (IsNotExist (exampleEnv.Stat minimalInput.SSHPrivateKeyFile) = true ∨
              IsNotExist (exampleEnv.Stat minimalInput.SSHPublicKeyFile) = true)) ∧
         (minimalInput.Username ≠ "" ∧ minimalInput.Password ≠ "" ∧ minimalInput.Zone ≠ "" ∧
            minimalInput.StorageUUID ≠ "") ∧
         (exampleEnv.ParseDuration (applyDefaults minimalInput).RawStateTimeoutDuration).2 =
            none)) :=
  C2_no_partial_success exampleEnv [some minimalInput] minimalInput (by decide)

/-- C8: when decoding fails NewConfig returns a nil configuration and the
decode error itself, neither wrapped nor aggregated; and no later step runs:
the outcome is the same whatever the communicator's Prepare, `os.Stat` and
`time.ParseDuration` would have answered. -/
theorem C8_decode_error_returned_alone {ρ : Type} (env env2 : Env ρ) (raws : List ρ)
    (d : Config) (err : GoError)
    (hd : env.Decode Config.zero raws = (d, some err))
    (hsame : env2.Decode = env.Decode) :
    NewConfig env raws = Outcome.returned none (some (ReturnedError.plain err)) ∧
    NewConfig env2 raws = NewConfig env raws := by
  have h1 := NewConfig_of_decode_error env raws err (by rw [hd])
  have h2 := NewConfig_of_decode_error env2 raws err (by rw [hsame, hd])
  exact ⟨h1, by rw [h1, h2]⟩

/-- C8 on an input that does not decode, in two environments that agree on
decoding only. -/
theorem C8_decode_error_returned_alone_witness :
    NewConfig exampleEnv [some minimalInput, none] =
      Outcome.returned none (some (ReturnedError.plain ⟨"1 error(s) decoding"⟩)) ∧
    NewConfig strictEnv [some minimalInput, none] =
      NewConfig exampleEnv [some minimalInput, none] :=
  C8_decode_error_returned_alone exampleEnv strictEnv [some minimalInput, none] minimalInput
    ⟨"1 error(s) decoding"⟩ (by decide) rfl

/-- C10: the check at line 112 never reads through a nil pointer.  The
accumulator is declared nil, the unconditional append of Prepare's errors at
line 71 makes it a non-nil aggregate holding exactly those errors (an empty
list included), every later step keeps it non-nil, and so NewConfig always
returns: on every input it ends with a pair, never with a nil dereference. -/
theorem C10_accumulator_never_nil {ρ : Type} (env : Env ρ) (raws : List ρ) :
    (∀ c : Config, (prepareComm env c).2 = some ⟨prepareErrors env c⟩) ∧
    (∀ c : Config, prepareErrors env c = [] → (prepareComm env c).2 = some ⟨[]⟩) ∧
    (∀ c : Config, ∃ m : MultiError, (validate env c).2 = some m) ∧
    (∀ c : Config, collectedErrors env c = [] → (validate env c).2 = some ⟨[]⟩) ∧
    NewConfig env raws ≠ Outcome.nilDereference ∧
    ∃ (co : Option Config) (eo : Option ReturnedError),
      NewConfig env raws = Outcome.returned co eo := by
  have hret : ∃ (co : Option Config) (eo : Option ReturnedError),
      NewConfig env raws = Outcome.returned co eo := by
    rcases hdec : env.Decode Config.zero raws with ⟨d, e⟩
    cases e with
    | some err => exact ⟨_, _, NewConfig_of_decode_error env raws err (by rw [hdec])⟩
    | none =>
      rw [NewConfig_of_decoded_eq env raws d hdec]
      split_ifs
      · exact ⟨_, _, rfl⟩
      · exact ⟨_, _, rfl⟩
  refine ⟨fun c => rfl, ?_, fun c => ⟨_, validate_errs env c⟩, ?_, ?_, hret⟩
  · intro c h
    show some (MultiError.mk (prepareErrors env c)) = _
    rw [h]
  · intro c h
    rw [validate_errs, h]
  · obtain ⟨co, eo, h⟩ := hret
    rw [h]
    intro hc
    cases hc

/-- C3, as the code behaves: line 59 assigns the access username without
looking at the decoded value, so the username after the defaults step, the one
handed to the communicator's Prepare, is "root" for every input; an input
that decodes with the username "admin" comes back with "root". -/
theorem C3_ssh_username_overwritten :
    (∀ c : Config, (applyDefaults c).Comm.SSHUsername = "root") ∧
    (∀ (env : Env (Option Config)) (c : Config),
      prepareErrors env (applyDefaults c) =
        (env.Prepare { c.Comm with SSHUsername := "root" } c.ctx).2.2) ∧
    exampleEnv.Decode Config.zero [some customSSHUser] = (customSSHUser, none) ∧
    customSSHUser.Comm.SSHUsername = "admin" ∧
    NewConfig exampleEnv [some customSSHUser] =
      Outcome.returned (some { customSSHUser with
        Comm := { SSHUsername := "root", Other := [] }, StorageSize := 30,
        RawStateTimeoutDuration := "5m", StateTimeoutDuration := 300000000000 }) none := by
  refine ⟨fun c => ?_, fun env c => ?_, by decide, by decide, by decide⟩
  · rw [(applyDefaults_fields c).2.2.2.2.2.2.2.2.2]
  · unfold prepareErrors
    rw [(applyDefaults_fields c).2.2.2.2.2.2.2.2.2, (applyDefaults_fields c).2.2.2.2.2.2.2.1]

/-- C4, the claim as stated fails: with only ssh_private_keyfile set, to a
path that `os.Stat` reports missing, NewConfig succeeds and returns a
configuration whose private key path is set and does not exist. -/
theorem C4_counterexample_only_one_key_path :
    ∃ cfg : Config,
      NewConfig exampleEnv [some onlyPrivateKey] = Outcome.returned (some cfg) none ∧
      cfg.SSHPrivateKeyFile = "/keys/lost" ∧ cfg.SSHPublicKeyFile = "" ∧
      exampleEnv.Stat cfg.SSHPrivateKeyFile = some StatError.notExist ∧
      IsNotExist (exampleEnv.Stat cfg.SSHPrivateKeyFile) = true :=
  ⟨{ onlyPrivateKey with
      Comm := { SSHUsername := "root", Other := [] }, StorageSize := 30,
      RawStateTimeoutDuration := "5m", StateTimeoutDuration := 300000000000 },
    by decide, by decide, by decide, by decide, by decide⟩

/-- C4, amended: in the configuration of a successful NewConfig the username,
password, zone and storage_uuid are non-empty, the derived timeout is the
duration that the raw timeout string parses to, without error, and if both
key paths are set then `os.Stat` reports neither of them missing. -/
theorem C4_postcondition_of_success {ρ : Type} (env : Env ρ) (raws : List ρ) (cfg : Config)
    (hs : NewConfig env raws = Outcome.returned (some cfg) none) :
    cfg.Username ≠ "" ∧ cfg.Password ≠ "" ∧ cfg.Zone ≠ "" ∧ cfg.StorageUUID ≠ "" ∧
    env.ParseDuration cfg.RawStateTimeoutDuration = (cfg.StateTimeoutDuration, none) ∧
    (cfg.SSHPrivateKeyFile ≠ "" → cfg.SSHPublicKeyFile ≠ "" →
      IsNotExist (env.Stat cfg.SSHPrivateKeyFile) = false ∧
      IsNotExist (env.Stat cfg.SSHPublicKeyFile) = false) := by
  obtain ⟨d, -, hnil, hc⟩ := (NewConfig_success_iff env raws cfg).mp hs
  obtain ⟨-, hk, hr, ht⟩ := (collectedErrors_eq_nil env (applyDefaults d)).mp hnil
  rw [keyFileErrors_eq_nil] at hk
  rw [requiredErrors_eq_nil] at hr
  rw [timeoutErrors_eq_nil] at ht
  rw [validate_cfg] at hc
  subst hc
  refine ⟨hr.1, hr.2.1, hr.2.2.1, hr.2.2.2, ?_, ?_⟩
  · exact Prod.ext rfl ht
  · intro h1 h2
    constructor
    · by_contra h3
      exact hk ⟨h1, h2, Or.inl (by simpa using h3)⟩
    · by_contra h3
      exact hk ⟨h1, h2, Or.inr (by simpa using h3)⟩

/-- C4 amended, on the minimal input with both key files on disk. -/
theorem C4_postcondition_of_success_witness :
    ("user" : String) ≠ "" ∧ ("secret" : String) ≠ "" ∧ ("fi-hel1" : String) ≠ "" ∧
    ("01000000-0000-4000-8000-000030060200" : String) ≠ "" ∧
    exampleEnv.ParseDuration "5m" = (300000000000, none) ∧
    (("/keys/id_rsa" : String) ≠ "" → ("/keys/id_rsa.pub" : String) ≠ "" →
      IsNotExist (exampleEnv.Stat "/keys/id_rsa") = false ∧
      IsNotExist (exampleEnv.Stat "/keys/id_rsa.pub") = false) :=
  C4_postcondition_of_success exampleEnv
    [some { minimalInput with
      SSHPrivateKeyFile := "/keys/id_rsa", SSHPublicKeyFile := "/keys/id_rsa.pub" }]
    { minimalInput with
      SSHPrivateKeyFile := "/keys/id_rsa", SSHPublicKeyFile := "/keys/id_rsa.pub",
      Comm := { SSHUsername := "root", Other := [] }, StorageSize := 30,
      RawStateTimeoutDuration := "5m", StateTimeoutDuration := 300000000000 }
    (by decide)

/-- C5: in the configuration of a successful NewConfig the storage size is 30
when the decoded storage_size is 0 and the decoded value otherwise (100 stays
100); the raw timeout string is "5m" when the decoded state_timeout_duration
is empty and the decoded string otherwise; and the derived timeout is the
duration that `time.ParseDuration` gives for that raw string, without error:
5 minutes by default and 10 minutes for "10m", these being what the library
function gives for "5m" and "10m". -/
theorem C5_defaults_and_timeout {ρ : Type} (env : Env ρ) (raws : List ρ) (d cfg : Config)
    (hd : env.Decode Config.zero raws = (d, none))
    (hs : NewConfig env raws = Outcome.returned (some cfg) none) :
    cfg.StorageSize = (if d.StorageSize = 0 then 30 else d.StorageSize) ∧
    (d.StorageSize = 100 → cfg.StorageSize = 100) ∧
    cfg.RawStateTimeoutDuration =
      (if d.RawStateTimeoutDuration = "" then "5m" else d.RawStateTimeoutDuration) ∧
    env.ParseDuration cfg.RawStateTimeoutDuration = (cfg.StateTimeoutDuration, none) ∧
    (d.RawStateTimeoutDuration = "" → env.ParseDuration "5m" = (300000000000, none) →
      cfg.StateTimeoutDuration = 300000000000) ∧
    (d.RawStateTimeoutDuration = "10m" → env.ParseDuration "10m" = (600000000000, none) →
      cfg.RawStateTimeoutDuration = "10m" ∧ cfg.StateTimeoutDuration = 600000000000) := by
  obtain ⟨d2, hd2, hnil, hc⟩ := (NewConfig_success_iff env raws cfg).mp hs
  rw [hd] at hd2
  injection hd2 with hd2
  subst hd2
  have ht := (timeoutErrors_eq_nil env (applyDefaults d)).mp
    ((collectedErrors_eq_nil env (applyDefaults d)).mp hnil).2.2.2
  rw [validate_cfg] at hc
  have hsize : cfg.StorageSize = (if d.StorageSize = 0 then 30 else d.StorageSize) := by
    rw [hc]; exact applyDefaults_size d
  have hraw : cfg.RawStateTimeoutDuration =
      (if d.RawStateTimeoutDuration = "" then "5m" else d.RawStateTimeoutDuration) := by
    rw [hc]; exact applyDefaults_raw d
  have hparse : env.ParseDuration cfg.RawStateTimeoutDuration =
      (cfg.StateTimeoutDuration, none) := by
    rw [hc]; exact Prod.ext rfl ht
  refine ⟨hsize, ?_, hraw, hparse, ?_, ?_⟩
  · intro h
    rw [hsize, h]
    decide
  · intro h h5
    rw [hraw, if_pos h, h5] at hparse
    injection hparse with h1 _
    exact h1.symm
  · intro h h10
    have hr : cfg.RawStateTimeoutDuration = "10m" := by
      rw [hraw, h]; decide
    rw [hr, h10] at hparse
    injection hparse with h1 _
    exact ⟨hr, h1.symm⟩

/-- C5 on an input with storage_size 100 and state_timeout_duration "10m":
both come back unchanged and the derived timeout is 10 minutes. -/
theorem C5_defaults_and_timeout_witness :
    ∃ cfg : Config,
      NewConfig exampleEnv [some sizedInput] = Outcome.returned (some cfg) none ∧
      cfg.StorageSize = 100 ∧ cfg.RawStateTimeoutDuration = "10m" ∧
      cfg.StateTimeoutDuration = 600000000000 := by
  have hs : NewConfig exampleEnv [some sizedInput] =
      Outcome.returned (some { sizedInput with
        Comm := { SSHUsername := "root", Other := [] },
        StateTimeoutDuration := 600000000000 }) none := by decide
  obtain ⟨-, h1, -, -, -, h2⟩ :=
    C5_defaults_and_timeout exampleEnv [some sizedInput] sizedInput _ (by decide) hs
  have h3 := h2 (by decide) (by decide)
  exact ⟨_, hs, h1 (by decide), h3.1, h3.2⟩

/-- C7: after a successful decode, when the timeout string does not parse
NewConfig fails and its aggregate is the list of errors of the other checks
(Prepare, key files, required fields, in that order) followed by exactly one
error "Failed to parse state_timeout_duration: " with the parser's message.
That list of other errors is the whole aggregate of the same input with a
timeout string that parses, and NewConfig succeeds on that input exactly when
the list is empty.  No check of NewConfig other than the timeout one adds an
error of that form. -/
theorem C7_timeout_parse_failure {ρ : Type} (env : Env ρ) (r1 r2 : List ρ) (d : Config)
    (t : String) (perr : GoError)
    (h1 : env.Decode Config.zero r1 = (d, none))
    (hbad : (env.ParseDuration (applyDefaults d).RawStateTimeoutDuration).2 = some perr)
    (h2 : env.Decode Config.zero r2 = ({ d with RawStateTimeoutDuration := t }, none))
    (hgood : (env.ParseDuration
      (applyDefaults { d with RawStateTimeoutDuration := t }).RawStateTimeoutDuration).2 =
        none) :
    ∃ others : List GoError,
      (validate env (applyDefaults { d with RawStateTimeoutDuration := t })).2 =
        some ⟨others⟩ ∧
      others = prepareErrors env (applyDefaults d) ++ keyFileErrors env (applyDefaults d) ++
        requiredErrors (applyDefaults d) ∧
      NewConfig env r1 = Outcome.returned none
        (some (ReturnedError.multi ⟨others ++ [errorfParseTimeout perr]⟩)) ∧
      (others = [] → ∃ cfg, NewConfig env r2 = Outcome.returned (some cfg) none) ∧
      (others ≠ [] →
        NewConfig env r2 = Outcome.returned none (some (ReturnedError.multi ⟨others⟩))) ∧
      (∀ e : GoError, (others ++ [errorfParseTimeout perr]).count (errorfParseTimeout e) =
        (prepareErrors env (applyDefaults d)).count (errorfParseTimeout e) +
          (if e = perr then 1 else 0)) := by
  obtain ⟨hp, hk, hr⟩ := checks_ignore_timeout env d t
  have hgoodnil := (timeoutErrors_eq_nil env
    (applyDefaults { d with RawStateTimeoutDuration := t })).mpr hgood
  have hc2 : collectedErrors env (applyDefaults { d with RawStateTimeoutDuration := t }) =
      prepareErrors env (applyDefaults d) ++ keyFileErrors env (applyDefaults d) ++
        requiredErrors (applyDefaults d) := by
    unfold collectedErrors
    rw [hp, hk, hr, hgoodnil, List.append_nil]
  have hc1 : collectedErrors env (applyDefaults d) =
      (prepareErrors env (applyDefaults d) ++ keyFileErrors env (applyDefaults d) ++
        requiredErrors (applyDefaults d)) ++ [errorfParseTimeout perr] := by
    unfold collectedErrors
    rw [timeoutErrors_of_error env _ perr hbad]
  refine ⟨prepareErrors env (applyDefaults d) ++ keyFileErrors env (applyDefaults d) ++
    requiredErrors (applyDefaults d), ?_, rfl, ?_, ?_, ?_, ?_⟩
  · rw [validate_errs, hc2]
  · have hne : collectedErrors env (applyDefaults d) ≠ [] := by
      rw [hc1]; simp
    rw [NewConfig_fails_of_errors env r1 d h1 hne, hc1]
  · intro hnil
    refine ⟨(validate env (applyDefaults { d with RawStateTimeoutDuration := t })).1, ?_⟩
    rw [NewConfig_of_decoded_eq env r2 _ h2, if_pos (by rw [hc2]; exact hnil)]
  · intro hne
    rw [NewConfig_fails_of_errors env r2 _ h2 (by rw [hc2]; exact hne), hc2]
  · intro e
    simp only [List.count_append, keyFileErrors_count_errorf, requiredErrors_count_errorf,
      Nat.add_zero]
    congr 1
    by_cases he : e = perr
    · subst he
      simp
    · have hne : errorfParseTimeout perr ≠ errorfParseTimeout e := fun h =>
        he (errorfParseTimeout_injective _ _ h).symm
      simp [List.count_cons, he, hne]

/-- C7 on an input without a password and with the timeout "notaduration",
against the same input with "10m": the first aggregate is the second one,
the password error, followed by the one timeout error. -/
theorem C7_timeout_parse_failure_witness :
    NewConfig exampleEnv [some { badTimeout with RawStateTimeoutDuration := "10m" }] =
      Outcome.returned none (some (ReturnedError.multi
        ⟨[errorsNew "\"password\" must be specified"]⟩)) ∧
    NewConfig exampleEnv [some badTimeout] =
      Outcome.returned none (some (ReturnedError.multi
        ⟨[errorsNew "\"password\" must be specified",
          ⟨"Failed to parse state_timeout_duration: time: invalid duration notaduration"⟩]⟩)) := by
  obtain ⟨others, -, ho, hf1, -, hf2, -⟩ :=
    C7_timeout_parse_failure exampleEnv [some badTimeout]
      [some { badTimeout with RawStateTimeoutDuration := "10m" }] badTimeout "10m"
      ⟨"time: invalid duration notaduration"⟩ (by decide) (by decide) (by decide) (by decide)
  have hv : others = [errorsNew "\"password\" must be specified"] := by
    rw [ho]; decide
  subst hv
  exact ⟨hf2 (by decide), hf1⟩

/-- C9: template_prefix is never validated.  For two inputs whose decoded
configurations differ only in template_prefix (which may be empty in either),
NewConfig fails on both with the same error or succeeds on both, and on
success each returned configuration carries its own decoded template_prefix
unchanged, the two results agreeing in every other field. -/
theorem C9_template_not_validated {ρ : Type} (env : Env ρ) (r1 r2 : List ρ) (d : Config)
    (p : String)
    (h1 : env.Decode Config.zero r1 = (d, none))
    (h2 : env.Decode Config.zero r2 = ({ d with TemplatePrefix := p }, none)) :
    (∀ e : ReturnedError, NewConfig env r1 = Outcome.returned none (some e) ↔
      NewConfig env r2 = Outcome.returned none (some e)) ∧
    ((∃ cfg, NewConfig env r1 = Outcome.returned (some cfg) none) ↔
      (∃ cfg, NewConfig env r2 = Outcome.returned (some cfg) none)) ∧
    (∀ cfg : Config, NewConfig env r1 = Outcome.returned (some cfg) none →
      cfg.TemplatePrefix = d.TemplatePrefix ∧
      NewConfig env r2 =
        Outcome.returned (some { cfg with TemplatePrefix := p }) none) := by
  have e1 := NewConfig_of_decoded_eq env r1 d h1
  have e2 := NewConfig_of_decoded_eq env r2 _ h2
  rw [applyDefaults_withTemplate, collectedErrors_withTemplate, validate_withTemplate] at e2
  have htp : (validate env (applyDefaults d)).1.TemplatePrefix = d.TemplatePrefix := by
    rw [validate_cfg]
    exact (applyDefaults_fields d).2.2.2.2.2.2.1
  by_cases h : collectedErrors env (applyDefaults d) = []
  · rw [if_pos h] at e1 e2
    rw [e1, e2]
    refine ⟨fun e => ?_, ⟨fun _ => ⟨_, rfl⟩, fun _ => ⟨_, rfl⟩⟩, fun cfg hc => ?_⟩
    · constructor <;> intro hc <;> cases hc
    · injection hc with hc
      injection hc with hc
      subst hc
      exact ⟨htp, rfl⟩
  · rw [if_neg h] at e1 e2
    rw [e1, e2]
    refine ⟨fun e => Iff.rfl, ?_, fun cfg hc => ?_⟩
    · constructor <;> rintro ⟨cfg, hc⟩ <;> cases hc
    · cases hc

/-- C9 on the minimal input, whose template_prefix is empty, against the same
input with a prefix: both succeed and each keeps its own prefix. -/
theorem C9_template_not_validated_witness :
    ∃ cfg : Config,
      NewConfig exampleEnv [some minimalInput] = Outcome.returned (some cfg) none ∧
      cfg.TemplatePrefix = "" ∧
      NewConfig exampleEnv [some prefixedInput] =
        Outcome.returned (some { cfg with TemplatePrefix := "packer-build" }) none := by
  have hs : NewConfig exampleEnv [some minimalInput] =
      Outcome.returned (some { minimalInput with
        Comm := { SSHUsername := "root", Other := [] }, StorageSize := 30,
        RawStateTimeoutDuration := "5m", StateTimeoutDuration := 300000000000 }) none := by
    decide
  obtain ⟨-, -, h3⟩ :=
    C9_template_not_validated exampleEnv [some minimalInput] [some prefixedInput]
      minimalInput "packer-build" (by decide) (by decide)
  have h4 := h3 _ hs
  exact ⟨_, hs, h4.1, h4.2⟩

end Upcloud
